import Mathlib

/-!
Verification development for `be/src/connector/connector.h` of the StarRocks
connector layer: the `DataSource` / `DataSourceProvider` / `Connector` /
`ConnectorManager` abstractions.  The C++ header is shallowly embedded below:
default virtual-method bodies become Lean functions, base-class member
initializers become structure-field defaults, and machine integers
(`int64_t`, `int32_t`) become `Int` (no arithmetic here comes near 2^63, and
overflow never matters for the stated properties).  Code of the repository
whose definition is not in the tree (only declared in the header) is modelled
from the specification document and marked as such in its doc comment.
-/

/-- Opaque stand-in for `starrocks::RuntimeState` (external collaborator). -/
structure RuntimeState where
  id : Nat := 0
deriving DecidableEq

/-- Opaque stand-in for `starrocks::ExprContext` (external collaborator). -/
structure ExprContext where
  id : Nat := 0
deriving DecidableEq

/-- Opaque stand-in for `starrocks::ConnectorScanNode` (external collaborator). -/
structure ConnectorScanNode where
  id : Nat := 0
deriving DecidableEq

/-- Opaque stand-in for thrift `TPlanNode` (external collaborator). -/
structure TPlanNode where
  id : Nat := 0
deriving DecidableEq

/-- Thrift scan-range descriptor `TScanRangeParams`: backend-specific
descriptor of a contiguous piece of a table.  It is opaque to this layer;
`rows` is the row count used when a splittable backend subdivides a range by
row-count boundaries. -/
structure TScanRangeParams where
  id : Nat := 0
  rows : Nat := 0
deriving DecidableEq

/-- Thrift enum `TTabletInternalParallelMode::type`, passed through to the
splitting algorithm. -/
inductive TTabletInternalParallelMode where
  | AUTO
  | FORCE_SPLIT
deriving DecidableEq

/-! ## DataSource (base-class state and default virtual implementations)

`connector.h` lines 41-105.  The protected fields below carry the base-class
member initializers; the `DataSource.*` functions embed the default bodies of
the virtual methods. -/

/-- Base-class state of `DataSource` (`connector.h` lines 93-104), with the
C++ in-class member initializers as field defaults. -/
structure DataSourceState where
  _read_limit : Int := -1
  _has_any_predicate : Bool := false
  _conjunct_ctxs : List ExprContext := []
  _has_runtime_filters : Bool := false
deriving DecidableEq

/-- Default body of `DataSource::close` (`connector.h` line 46):
`virtual void close(RuntimeState* state) {}`.  The C++ return type is `void`,
so the only thing a call can hand back to the caller is the (unchanged)
object state; the second component is the status channel exposed to the
caller, which does not exist for `close` and is therefore constantly `none`. -/
def DataSource.close (s : DataSourceState) (_state : RuntimeState) :
    DataSourceState × Option String :=
  (s, none)

/-- Default body of `DataSource::can_estimate_mem_usage`
(`connector.h` line 60): `{ return false; }`. -/
def DataSource.can_estimate_mem_usage (_s : DataSourceState) : Bool :=
  false

/-- Default body of `DataSource::estimated_mem_usage`
(`connector.h` line 61): `{ return 0; }`. -/
def DataSource.estimated_mem_usage (_s : DataSourceState) : Int :=
  0

/-- Default body of `DataSource::io_time_spent` (`connector.h` line 59). -/
def DataSource.io_time_spent (_s : DataSourceState) : Int :=
  0

/-- Body of `DataSource::has_any_predicate` (`connector.h` line 48). -/
def DataSource.has_any_predicate (s : DataSourceState) : Bool :=
  s._has_any_predicate

/-! ## Morsels and the morsel queue -/

/-- A single row, as seen by the row-accounting model.  Concrete backends
produce columnar chunks; for row counting and predicate filtering only the
row values matter, so a row is modelled by one value. -/
abbrev Row := Int

/-- A morsel: the scheduling-granularity unit derived from scan ranges.
`scanMorsel` is one whole input scan range (`pipeline::ScanMorsel`);
`wholeSource` is the placeholder morsel representing the whole source,
produced for range-less backends when the scan-range list is empty;
`logicalSplit`/`physicalSplit` are sub-ranges `[lo, hi)` produced by
tablet-internal splitting. -/
inductive Morsel where
  | scanMorsel (node_id : Int) (r : TScanRangeParams)
  | wholeSource (node_id : Int)
  | logicalSplit (node_id : Int) (r : TScanRangeParams) (lo hi : Nat)
  | physicalSplit (node_id : Int) (r : TScanRangeParams) (lo hi : Nat)
deriving DecidableEq

/-- `pipeline::MorselQueue`: the ordered collection of morsels produced by a
provider for one logical scan. -/
structure MorselQueue where
  morsels : List Morsel
deriving DecidableEq

/-! ## DataSourceProvider -/

/-- `DataSourceProvider::MIN_DATA_SOURCE_MEM_BYTES` (`connector.h` line 123). -/
def MIN_DATA_SOURCE_MEM_BYTES : Int := 16 * 1024 * 1024

/-- `DataSourceProvider::MAX_DATA_SOURCE_MEM_BYTES` (`connector.h` line 124). -/
def MAX_DATA_SOURCE_MEM_BYTES : Int := 256 * 1024 * 1024

/-- `DataSourceProvider::PER_FIELD_MEM_BYTES` (`connector.h` line 125). -/
def PER_FIELD_MEM_BYTES : Int := 4 * 1024 * 1024

/-- Base-class state of `DataSourceProvider` (`connector.h` lines 121-184).
The four Bool flags named after virtual methods model those overridable
methods, with the field default equal to the base-class default body
(`insert_local_exchange_operator` → `false`, `accept_empty_scan_ranges` →
`true`, `stream_data_source` → `false`, `always_shared_scan` → `true`);
the protected members `_could_split`, `_could_split_physically`,
`splitted_scan_rows` and `scan_dop` carry their C++ in-class initializers. -/
structure DataSourceProvider where
  insert_local_exchange_operator : Bool := false
  accept_empty_scan_ranges : Bool := true
  stream_data_source : Bool := false
  always_shared_scan : Bool := true
  _partition_exprs : List ExprContext := []
  _could_split : Bool := false
  _could_split_physically : Bool := false
  splitted_scan_rows : Int := 0
  scan_dop : Int := 0
deriving DecidableEq

/-- `DataSourceProvider::could_split` (`connector.h` line 171). -/
def DataSourceProvider.could_split (p : DataSourceProvider) : Bool :=
  p._could_split

/-- `DataSourceProvider::could_split_physically` (`connector.h` line 173). -/
def DataSourceProvider.could_split_physically (p : DataSourceProvider) : Bool :=
  p._could_split_physically

/-- `DataSourceProvider::get_splitted_scan_rows` (`connector.h` line 175). -/
def DataSourceProvider.get_splitted_scan_rows (p : DataSourceProvider) : Int :=
  p.splitted_scan_rows

/-- `DataSourceProvider::get_scan_dop` (`connector.h` line 176). -/
def DataSourceProvider.get_scan_dop (p : DataSourceProvider) : Int :=
  p.scan_dop

/-- `DataSourceProvider::partition_exprs` (`connector.h` line 153). -/
def DataSourceProvider.partition_exprs (p : DataSourceProvider) : List ExprContext :=
  p._partition_exprs

/-- Default body of `DataSourceProvider::default_data_source_mem_bytes`
(`connector.h` lines 161-164): writes `MIN_DATA_SOURCE_MEM_BYTES` and
`MAX_DATA_SOURCE_MEM_BYTES` through the two out-parameters, overwriting
whatever values the caller passed in. -/
def DataSourceProvider.default_data_source_mem_bytes (_p : DataSourceProvider)
    (_min_value _max_value : Int) : Int × Int :=
  (MIN_DATA_SOURCE_MEM_BYTES, MAX_DATA_SOURCE_MEM_BYTES)

/-- A freshly constructed `DataSourceProvider` that overrides none of the
defaults: every field takes its base-class initializer. -/
def freshDataSourceProvider : DataSourceProvider := {}

/-- Number of pieces each range is subdivided into when splitting toward
`pipeline_dop` over `numRanges` ranges. -/
def piecesPerRange (numRanges : Nat) (pipeline_dop : Int) : Nat :=
  if numRanges = 0 then 1
  else max 1 ((pipeline_dop.toNat + numRanges - 1) / numRanges)

/-- Subdivide one scan range into at most `pieces` contiguous sub-ranges by
row-count boundaries, capped so a small range is not over-split: a range with
`rows` rows yields at most `max rows 1` pieces.  Physical splitting and
logical splitting produce the same boundaries but differently tagged
morsels. -/
def subdivideRange (physical : Bool) (node_id : Int) (pieces : Nat)
    (r : TScanRangeParams) : List Morsel :=
  let k := min pieces (max r.rows 1)
  if k ≤ 1 then [Morsel.scanMorsel node_id r]
  else
    let c := (r.rows + k - 1) / k
    (List.range k).map (fun i =>
      if physical then Morsel.physicalSplit node_id r (i * c) (min ((i + 1) * c) r.rows)
      else Morsel.logicalSplit node_id r (i * c) (min ((i + 1) * c) r.rows))

/-- Modelled from the spec: the body of
`DataSourceProvider::convert_scan_range_to_morsel_queue` is not in this tree
(only its declaration, `connector.h` lines 166-169, is).  Following §4.3 of
the spec: if the scan-range list is empty and the backend accepts no empty
scan-range list (no range concept, whole-table source), the queue still
represents the whole source rather than zero work, as one placeholder morsel;
otherwise, if the backend is not splittable (`could_split()` false) or
tablet-internal parallelism is disabled, each input scan range becomes
exactly one morsel and parallelism is bounded by `num_total_scan_ranges`;
otherwise ranges are subdivided (physically when `could_split_physically()`,
else only logically by row-count boundaries) to raise the morsel count
toward `pipeline_dop`, and the resulting `scan_dop` and `splitted_scan_rows`
are recorded for `get_scan_dop` / `get_splitted_scan_rows`. -/
def DataSourceProvider.convert_scan_range_to_morsel_queue (p : DataSourceProvider)
    (scan_ranges : List TScanRangeParams) (node_id : Int) (pipeline_dop : Int)
    (enable_tablet_internal_parallel : Bool)
    (_tablet_internal_parallel_mode : TTabletInternalParallelMode)
    (num_total_scan_ranges : Nat) : DataSourceProvider × MorselQueue :=
  if scan_ranges.isEmpty && !p.accept_empty_scan_ranges then
    ({ p with scan_dop := min pipeline_dop (num_total_scan_ranges : Int) },
     ⟨[Morsel.wholeSource node_id]⟩)
  else if !p._could_split || !enable_tablet_internal_parallel then
    ({ p with scan_dop := min pipeline_dop (num_total_scan_ranges : Int) },
     ⟨scan_ranges.map (Morsel.scanMorsel node_id)⟩)
  else
    let pieces := piecesPerRange scan_ranges.length pipeline_dop
    let morsels :=
      (scan_ranges.map (subdivideRange p._could_split_physically node_id pieces)).flatten
    ({ p with
        scan_dop := min pipeline_dop (morsels.length : Int),
        splitted_scan_rows := ((scan_ranges.map TScanRangeParams.rows).sum : Int) },
     ⟨morsels⟩)

/-! ## ConnectorType, Connector, ConnectorManager -/

/-- `enum ConnectorType` (`connector.h` lines 187-196). -/
inductive ConnectorType where
  | HIVE
  | ES
  | JDBC
  | MYSQL
  | FILE
  | LAKE
  | BINLOG
  | ICEBERG
deriving DecidableEq

/-- The numeric value each `ConnectorType` enumerator carries in the C++
declaration (`HIVE = 0`, …, `ICEBERG = 7`). -/
def ConnectorType.toCode : ConnectorType → Nat
  | .HIVE => 0
  | .ES => 1
  | .JDBC => 2
  | .MYSQL => 3
  | .FILE => 4
  | .LAKE => 5
  | .BINLOG => 6
  | .ICEBERG => 7

/-- The full list of `ConnectorType` enumerators, in declaration order. -/
def connectorTypeValues : List ConnectorType :=
  [.HIVE, .ES, .JDBC, .MYSQL, .FILE, .LAKE, .BINLOG, .ICEBERG]

/-- A `Connector` identifies one backend kind: `connector_type()` is its only
pure-virtual member, so a connector's observable identity is its
`ConnectorType` tag (`connector.h` lines 198-229). -/
structure Connector where
  connector_type : ConnectorType
deriving DecidableEq

/-- Opaque stand-in for `starrocks::connector::ConnectorChunkSinkProvider`
(declared in `connector_chunk_sink.h`, an external collaborator). -/
structure ConnectorChunkSinkProvider where
  id : Nat := 0
deriving DecidableEq

/-- Possible outcomes of a factory call, distinguishing the fatal
`CHECK(false)` assertion (process-aborting, `__builtin_unreachable()` after
it) from the outcomes the claim rules out: returning a provider, returning a
null provider, or returning a soft error status. -/
inductive FactoryResult (α : Type) where
  | fatalAssert (msg : String)
  | ok (value : α)
  | nullProvider
  | softError (msg : String)
deriving DecidableEq

/-- True exactly on the fatal-assertion outcome. -/
def FactoryResult.isFatalAssert {α : Type} : FactoryResult α → Bool
  | .fatalAssert _ => true
  | _ => false

/-- Default body of `Connector::create_data_source_provider`
(`connector.h` lines 214-218): `CHECK(false) << connector_type() <<
" connector does not implement chunk source yet";` followed by
`__builtin_unreachable()` — a fatal assertion carrying the streamed
message; no provider, null pointer or status is ever returned. -/
def Connector.create_data_source_provider (c : Connector)
    (_scan_node : ConnectorScanNode) (_plan_node : TPlanNode) :
    FactoryResult DataSourceProvider :=
  .fatalAssert (toString c.connector_type.toCode ++
    " connector does not implement chunk source yet")

/-- Default body of `Connector::create_data_sink_provider`
(`connector.h` lines 223-226): `CHECK(false) << connector_type() <<
" connector does not implement chunk sink yet";` followed by
`__builtin_unreachable()`. -/
def Connector.create_data_sink_provider (c : Connector) :
    FactoryResult ConnectorChunkSinkProvider :=
  .fatalAssert (toString c.connector_type.toCode ++
    " connector does not implement chunk sink yet")

/-- `ConnectorManager` state (`connector.h` lines 231-239): the
`std::unordered_map<std::string, std::unique_ptr<Connector>> _connectors`
member, modelled as an association list of owned connectors keyed by name. -/
structure ConnectorManager where
  _connectors : List (String × Connector) := []
deriving DecidableEq

/-- Modelled from the spec: the body of `ConnectorManager::get` is not in
this tree (only its declaration, `connector.h` line 234, is).  Per §4.4,
`get(name)` returns a non-owning lookup result for the connector registered
under `name`, or "not found" (`none`) when no such registration exists. -/
def ConnectorManager.get (m : ConnectorManager) (name : String) : Option Connector :=
  (m._connectors.find? (fun e => e.1 == name)).map (fun e => e.2)

/-- Modelled from the spec: the body of `ConnectorManager::put` is not in
this tree (only its declaration, `connector.h` line 235, is).  Per §4.4,
`put(name, connector)` transfers ownership of the connector to the manager,
registering it under `name`; registration is a startup-only operation, each
known connector registered once under its canonical name. -/
def ConnectorManager.put (m : ConnectorManager) (name : String) (c : Connector) :
    ConnectorManager :=
  { m with _connectors := (name, c) :: m._connectors }

/-- The connectors the manager currently owns. -/
def ConnectorManager.owned (m : ConnectorManager) : List Connector :=
  m._connectors.map (fun e => e.2)

/-- Perform a sequence of `put` registrations in order. -/
def ConnectorManager.putAll (m : ConnectorManager) (ps : List (String × Connector)) :
    ConnectorManager :=
  ps.foldl (fun acc q => acc.put q.1 q.2) m

/-! ## Row-accounting model of a concrete DataSource

`raw_rows_read` and `num_rows_read` are pure-virtual in `connector.h`
(lines 50-53); the concrete backends implementing them are not in this
tree. -/

/-- Modelled from the spec: a concrete `DataSource` behind the pure-virtual
accessors `raw_rows_read` / `num_rows_read` (`connector.h` lines 50-53).
Per §4.1 and §8 of the spec, `get_next` pulls the next raw batch from
storage, applies the source's own predicates before returning rows,
`raw_rows_read` counts rows read from storage, and `num_rows_read` counts
rows returned after filtering. -/
structure ModelDataSource where
  pending : List (List Row)
  pred : Row → Bool
  raw_rows_read : Nat := 0
  num_rows_read : Nat := 0

/-- One `get_next` call on the model source: end of data (`none`) when no
raw batches remain; otherwise the next raw batch is read from storage
(advancing `raw_rows_read` by its full size), filtered by the source's
predicates, and the surviving rows are returned (advancing `num_rows_read`
by the surviving count). -/
def ModelDataSource.get_next (s : ModelDataSource) :
    Option (List Row) × ModelDataSource :=
  match s.pending with
  | [] => (none, s)
  | batch :: rest =>
    let out := batch.filter s.pred
    (some out,
     { s with
        pending := rest,
        raw_rows_read := s.raw_rows_read + batch.length,
        num_rows_read := s.num_rows_read + out.length })

/-- Run up to `n` successive `get_next` calls, stopping at end-of-data;
returns the batches handed to the caller and the final source state. -/
def ModelDataSource.run_steps : Nat → ModelDataSource → List (List Row) × ModelDataSource
  | 0, s => ([], s)
  | Nat.succ n, s =>
    match s.get_next with
    | (none, s1) => ([], s1)
    | (some out, s1) =>
      let r := ModelDataSource.run_steps n s1
      (out :: r.1, r.2)

/-- Run `get_next` until end-of-data (one call per pending raw batch always
reaches it). -/
def ModelDataSource.run_to_end (s : ModelDataSource) : List (List Row) × ModelDataSource :=
  ModelDataSource.run_steps s.pending.length s

/-! ## Concrete instances used by witnesses and counterexamples -/

/-- A JDBC-tagged connector value. -/
def jdbcConnector : Connector := ⟨.JDBC⟩

/-- A HIVE-tagged connector value. -/
def hiveConnector : Connector := ⟨.HIVE⟩

/-- A provider for a whole-table backend with no scan-range concept:
`accept_empty_scan_ranges()` overridden to `false`, everything else at the
base-class defaults (in particular `could_split()` is `false`). -/
def wholeTableProvider : DataSourceProvider :=
  { accept_empty_scan_ranges := false }

/-! ## Theorems -/

/-- Claim C9: for a DataSource that does not override memory estimation,
the defaults report "estimation unsupported": `can_estimate_mem_usage()`
returns `false` and `estimated_mem_usage()` returns `0`. -/
theorem default_mem_estimation_unsupported (s : DataSourceState) :
    DataSource.can_estimate_mem_usage s = false ∧
    DataSource.estimated_mem_usage s = 0 :=
  ⟨rfl, rfl⟩

/-- Claim C7: `DataSource::close` is safe to call multiple times — a second
`close` after a prior one leaves the state exactly as the first left it (the
default body is a no-op, so the state is unchanged outright) — and `close`
exposes no error to its caller: its C++ return type is `void`, embedded here
as a status channel that is constantly `none`. -/
theorem close_idempotent_and_silent (s : DataSourceState) (st st2 : RuntimeState) :
    (DataSource.close s st).1 = s ∧
    (DataSource.close (DataSource.close s st).1 st2).1 = (DataSource.close s st).1 ∧
    (DataSource.close s st).2 = none :=
  ⟨rfl, rfl, rfl⟩

/-- Claim C6: the default `default_data_source_mem_bytes` overwrites the two
out-parameters with exactly 16MB and 256MB regardless of their incoming
values, and the 4MB-per-field heuristic constant `PER_FIELD_MEM_BYTES` is
available to callers. -/
theorem default_mem_bytes_window (p : DataSourceProvider) (a b : Int) :
    DataSourceProvider.default_data_source_mem_bytes p a b =
      (16 * 1024 * 1024, 256 * 1024 * 1024) ∧
    PER_FIELD_MEM_BYTES = 4 * 1024 * 1024 :=
  ⟨rfl, rfl⟩

/-- Claim C10: a freshly constructed `DataSourceProvider` that overrides none
of the defaults reports `insert_local_exchange_operator() = false`,
`accept_empty_scan_ranges() = true`, `stream_data_source() = false`,
`always_shared_scan() = true`, `could_split() = false`,
`could_split_physically() = false`, `get_scan_dop() = 0` and
`get_splitted_scan_rows() = 0`. -/
theorem fresh_provider_defaults :
    freshDataSourceProvider.insert_local_exchange_operator = false ∧
    freshDataSourceProvider.accept_empty_scan_ranges = true ∧
    freshDataSourceProvider.stream_data_source = false ∧
    freshDataSourceProvider.always_shared_scan = true ∧
    DataSourceProvider.could_split freshDataSourceProvider = false ∧
    DataSourceProvider.could_split_physically freshDataSourceProvider = false ∧
    DataSourceProvider.get_scan_dop freshDataSourceProvider = 0 ∧
    DataSourceProvider.get_splitted_scan_rows freshDataSourceProvider = 0 :=
  ⟨rfl, rfl, rfl, rfl, rfl, rfl, rfl, rfl⟩

/-- Claim C8: `connector_type()` ranges over a closed enumeration of exactly
the eight backend kinds HIVE, ES, JDBC, MYSQL, FILE, LAKE, BINLOG, ICEBERG:
every connector's type is in `connectorTypeValues`, every `ConnectorType`
value is in that list, and the list has eight pairwise-distinct entries. -/
theorem connector_type_closed_enum :
    (∀ c : Connector, c.connector_type ∈ connectorTypeValues) ∧
    (∀ t : ConnectorType, t ∈ connectorTypeValues) ∧
    connectorTypeValues.Nodup ∧
    connectorTypeValues.length = 8 := by
  refine ⟨fun c => ?_, fun t => ?_, by decide, rfl⟩
  · cases c with
    | mk t => cases t <;> simp [connectorTypeValues]
  · cases t <;> simp [connectorTypeValues]

/-- Claim C3: a Connector that does not override a factory direction fails
fast and loudly when asked for that direction: the default
`create_data_source_provider` and `create_data_sink_provider` both end in a
fatal `CHECK(false)` assertion, and never return a provider, a null
provider, or a soft error status. -/
theorem default_factory_direction_fails_fast (c : Connector)
    (sn : ConnectorScanNode) (pn : TPlanNode) :
    (c.create_data_source_provider sn pn).isFatalAssert = true ∧
    (∀ v, c.create_data_source_provider sn pn ≠ FactoryResult.ok v) ∧
    c.create_data_source_provider sn pn ≠ FactoryResult.nullProvider ∧
    (∀ m, c.create_data_source_provider sn pn ≠ FactoryResult.softError m) ∧
    (c.create_data_sink_provider).isFatalAssert = true ∧
    (∀ v, c.create_data_sink_provider ≠ FactoryResult.ok v) ∧
    c.create_data_sink_provider ≠ FactoryResult.nullProvider ∧
    (∀ m, c.create_data_sink_provider ≠ FactoryResult.softError m) := by
  refine ⟨rfl, fun v h => ?_, fun h => ?_, fun m h => ?_,
          rfl, fun v h => ?_, fun h => ?_, fun m h => ?_⟩ <;>
    simp [Connector.create_data_source_provider,
          Connector.create_data_sink_provider] at h

/-- Claim C5: for a provider with `accept_empty_scan_ranges() == false`,
converting an empty scan-range list yields the queue representing the whole
source — a single whole-source placeholder morsel — and in particular not an
empty queue. -/
theorem convert_empty_ranges_not_pruned (p : DataSourceProvider) (nid dop : Int)
    (par : Bool) (mode : TTabletInternalParallelMode) (ntot : Nat)
    (h : p.accept_empty_scan_ranges = false) :
    (p.convert_scan_range_to_morsel_queue [] nid dop par mode ntot).2.morsels =
      [Morsel.wholeSource nid] ∧
    (p.convert_scan_range_to_morsel_queue [] nid dop par mode ntot).2.morsels ≠ [] := by
  constructor <;>
    simp [DataSourceProvider.convert_scan_range_to_morsel_queue, h]

/-- Witness for `convert_empty_ranges_not_pruned` at a concrete whole-table
provider. -/
theorem convert_empty_ranges_not_pruned_witness :
    (wholeTableProvider.convert_scan_range_to_morsel_queue [] 0 8 false
        TTabletInternalParallelMode.AUTO 0).2.morsels = [Morsel.wholeSource 0] ∧
    (wholeTableProvider.convert_scan_range_to_morsel_queue [] 0 8 false
        TTabletInternalParallelMode.AUTO 0).2.morsels ≠ [] :=
  convert_empty_ranges_not_pruned wholeTableProvider 0 8 false
    TTabletInternalParallelMode.AUTO 0 rfl

/-- Counterexample to claim C1 as stated: `wholeTableProvider` has
`could_split() = false`, yet converting `N = 0` scan ranges does not yield
`N = 0` morsels — because `accept_empty_scan_ranges()` is `false`, the
conversion produces one whole-source placeholder morsel instead of an empty
queue. -/
theorem nonsplittable_exact_count_counterexample :
    DataSourceProvider.could_split wholeTableProvider = false ∧
    (wholeTableProvider.convert_scan_range_to_morsel_queue [] 0 8 false
        TTabletInternalParallelMode.AUTO 0).2.morsels.length ≠
      ([] : List TScanRangeParams).length := by
  decide

/-- Claim C1 (amended): for every provider with `could_split() = false` and
`N` scan ranges (passing `num_total_scan_ranges = N`), each input scan range
becomes exactly one morsel — so the queue has exactly `N` morsels — except
when `N = 0` and `accept_empty_scan_ranges()` is `false`, where a single
whole-source placeholder morsel is produced instead; in every case the
recorded `scan_dop` satisfies `scan_dop ≤ N`. -/
theorem nonsplittable_one_morsel_per_range (p : DataSourceProvider)
    (ranges : List TScanRangeParams) (nid dop : Int) (par : Bool)
    (mode : TTabletInternalParallelMode)
    (hsplit : DataSourceProvider.could_split p = false) :
    ((ranges = [] ∧ p.accept_empty_scan_ranges = false) →
      (p.convert_scan_range_to_morsel_queue ranges nid dop par mode
          ranges.length).2.morsels = [Morsel.wholeSource nid]) ∧
    ((ranges ≠ [] ∨ p.accept_empty_scan_ranges = true) →
      (p.convert_scan_range_to_morsel_queue ranges nid dop par mode
          ranges.length).2.morsels.length = ranges.length) ∧
    DataSourceProvider.get_scan_dop
      (p.convert_scan_range_to_morsel_queue ranges nid dop par mode
          ranges.length).1 ≤ (ranges.length : Int) := by
  simp only [DataSourceProvider.could_split] at hsplit
  refine ⟨?_, ?_, ?_⟩
  · rintro ⟨rfl, hacc⟩
    simp [DataSourceProvider.convert_scan_range_to_morsel_queue, hacc]
  · intro hca
    have hne : (ranges.isEmpty && !p.accept_empty_scan_ranges) = false := by
      rcases hca with h1 | h1
      · cases ranges with
        | nil => exact absurd rfl h1
        | cons a l => simp
      · simp [h1]
    simp [DataSourceProvider.convert_scan_range_to_morsel_queue, hne, hsplit]
  · by_cases hc : (ranges.isEmpty && !p.accept_empty_scan_ranges) = true
    · simp only [DataSourceProvider.convert_scan_range_to_morsel_queue, hc,
        if_true, DataSourceProvider.get_scan_dop]
      exact min_le_right _ _
    · simp only [Bool.not_eq_true] at hc
      simp only [DataSourceProvider.convert_scan_range_to_morsel_queue, hc,
        Bool.false_eq_true, if_false, hsplit, Bool.not_false, Bool.true_or,
        if_true, DataSourceProvider.get_scan_dop]
      exact min_le_right _ _

/-- Witness for `nonsplittable_one_morsel_per_range` at the default provider
with one scan range of 100 rows. -/
theorem nonsplittable_one_morsel_per_range_witness :
    (((([⟨1, 100⟩] : List TScanRangeParams) = [] ∧
          freshDataSourceProvider.accept_empty_scan_ranges = false) →
      (freshDataSourceProvider.convert_scan_range_to_morsel_queue [⟨1, 100⟩] 0 8 true
          TTabletInternalParallelMode.AUTO
          ([⟨1, 100⟩] : List TScanRangeParams).length).2.morsels =
        [Morsel.wholeSource 0])) ∧
    ((([⟨1, 100⟩] : List TScanRangeParams) ≠ [] ∨
          freshDataSourceProvider.accept_empty_scan_ranges = true) →
      (freshDataSourceProvider.convert_scan_range_to_morsel_queue [⟨1, 100⟩] 0 8 true
          TTabletInternalParallelMode.AUTO
          ([⟨1, 100⟩] : List TScanRangeParams).length).2.morsels.length =
        ([⟨1, 100⟩] : List TScanRangeParams).length) ∧
    DataSourceProvider.get_scan_dop
      (freshDataSourceProvider.convert_scan_range_to_morsel_queue [⟨1, 100⟩] 0 8 true
          TTabletInternalParallelMode.AUTO
          ([⟨1, 100⟩] : List TScanRangeParams).length).1 ≤
      ((([⟨1, 100⟩] : List TScanRangeParams).length : Nat) : Int) :=
  nonsplittable_one_morsel_per_range freshDataSourceProvider [⟨1, 100⟩] 0 8 true
    TTabletInternalParallelMode.AUTO rfl

/-- The process-wide default instance before startup registration has run:
an empty registry. -/
def ConnectorManager.default_instance : ConnectorManager := {}

/-- Helper: a registration already visible through `get` stays visible across
any later sequence of `put` calls under other names. -/
theorem ConnectorManager.get_putAll_of_ne (X : String) (c : Connector) :
    ∀ (later : List (String × Connector)) (m : ConnectorManager),
      m.get X = some c → (∀ q ∈ later, q.1 ≠ X) →
      (m.putAll later).get X = some c := by
  intro later
  induction later with
  | nil =>
    intro m h _
    exact h
  | cons q qs ih =>
    intro m h hq
    have hqX : (q.1 == X) = false :=
      beq_eq_false_iff_ne.mpr (hq q (List.mem_cons_self q qs))
    have hstep : (m.put q.1 q.2).get X = some c := by
      simpa [ConnectorManager.get, ConnectorManager.put, List.find?_cons, hqX] using h
    have : (m.putAll (q :: qs)) = ((m.put q.1 q.2).putAll qs) := rfl
    rw [this]
    exact ih (m.put q.1 q.2) hstep (fun r hr => hq r (List.mem_cons_of_mem q hr))

/-- Claim C2: `get(X)` on a manager holding no registration under `X`
returns not-found; after `put(X, c)`, `get(X)` returns `c`, and it keeps
returning `c` after any later sequence of registrations under other names;
and `put` transfers ownership of the connector to the manager (the connector
is among those the manager owns). -/
theorem connector_manager_get_put (m : ConnectorManager) (X : String) (c : Connector)
    (later : List (String × Connector))
    (hfresh : ∀ e ∈ m._connectors, e.1 ≠ X)
    (hlater : ∀ q ∈ later, q.1 ≠ X) :
    m.get X = none ∧
    (m.put X c).get X = some c ∧
    ((m.put X c).putAll later).get X = some c ∧
    c ∈ (m.put X c).owned := by
  have hput : (m.put X c).get X = some c := by
    simp [ConnectorManager.get, ConnectorManager.put, List.find?_cons]
  refine ⟨?_, hput, ConnectorManager.get_putAll_of_ne X c later _ hput hlater, ?_⟩
  · have : m._connectors.find? (fun e => e.1 == X) = none :=
      List.find?_eq_none.mpr (fun e he => by
        simp [beq_eq_false_iff_ne.mpr (hfresh e he)])
    simp [ConnectorManager.get, this]
  · simp [ConnectorManager.owned, ConnectorManager.put]

/-- Witness for `connector_manager_get_put`: the empty default instance, a
JDBC connector registered under "jdbc", then a HIVE connector registered
under "hive". -/
theorem connector_manager_get_put_witness :
    ConnectorManager.default_instance.get "jdbc" = none ∧
    (ConnectorManager.default_instance.put "jdbc" jdbcConnector).get "jdbc" =
      some jdbcConnector ∧
    ((ConnectorManager.default_instance.put "jdbc" jdbcConnector).putAll
        [("hive", hiveConnector)]).get "jdbc" = some jdbcConnector ∧
    jdbcConnector ∈ (ConnectorManager.default_instance.put "jdbc" jdbcConnector).owned :=
  connector_manager_get_put ConnectorManager.default_instance "jdbc" jdbcConnector
    [("hive", hiveConnector)] (by decide) (by decide)

/-- Helper: running `n ≥ |pending|` steps of `get_next` reaches end-of-data,
the rows handed out sum to the growth of `num_rows_read`, and the invariant
`num_rows_read ≤ raw_rows_read` is preserved. -/
theorem ModelDataSource.run_steps_spec :
    ∀ (n : Nat) (s : ModelDataSource), s.pending.length ≤ n →
      (((ModelDataSource.run_steps n s).1.map List.length).sum + s.num_rows_read =
          (ModelDataSource.run_steps n s).2.num_rows_read) ∧
      (ModelDataSource.run_steps n s).2.pending = [] ∧
      (s.num_rows_read ≤ s.raw_rows_read →
        (ModelDataSource.run_steps n s).2.num_rows_read ≤
          (ModelDataSource.run_steps n s).2.raw_rows_read) := by
  intro n
  induction n with
  | zero =>
    intro s hs
    have hp : s.pending = [] := List.length_eq_zero.mp (Nat.le_zero.mp hs)
    simp [ModelDataSource.run_steps, hp]
  | succ n ih =>
    intro s hs
    cases hp : s.pending with
    | nil =>
      simp [ModelDataSource.run_steps, ModelDataSource.get_next, hp]
    | cons batch rest =>
      have hlen : rest.length ≤ n := by
        rw [hp] at hs
        simpa using hs
      obtain ⟨ih1, ih2, ih3⟩ := ih
        { s with
            pending := rest,
            raw_rows_read := s.raw_rows_read + batch.length,
            num_rows_read := s.num_rows_read + (batch.filter s.pred).length }
        hlen
      refine ⟨?_, ?_, ?_⟩
      · simp only [ModelDataSource.run_steps, ModelDataSource.get_next, hp,
          List.map_cons, List.sum_cons] at ih1 ⊢
        omega
      · simpa [ModelDataSource.run_steps, ModelDataSource.get_next, hp] using ih2
      · intro hinv
        have hfilter : (batch.filter s.pred).length ≤ batch.length :=
          List.length_filter_le s.pred batch
        have hinv1 : s.num_rows_read + (batch.filter s.pred).length ≤
            s.raw_rows_read + batch.length := by omega
        simpa [ModelDataSource.run_steps, ModelDataSource.get_next, hp]
          using ih3 hinv1

/-- Claim C4: one `get_next` step preserves `num_rows_read ≤ raw_rows_read`
(filtering only removes rows), and a fresh model data source driven by
`get_next` until end-of-data hands out batches whose total row count equals
`num_rows_read()` at close time, with `num_rows_read ≤ raw_rows_read` at the
end as well. -/
theorem data_source_row_accounting :
    (∀ s : ModelDataSource, s.num_rows_read ≤ s.raw_rows_read →
        (s.get_next).2.num_rows_read ≤ (s.get_next).2.raw_rows_read) ∧
    (∀ (batches : List (List Row)) (pred : Row → Bool),
        ((ModelDataSource.run_to_end ⟨batches, pred, 0, 0⟩).1.map List.length).sum =
          (ModelDataSource.run_to_end ⟨batches, pred, 0, 0⟩).2.num_rows_read ∧
        (ModelDataSource.run_to_end ⟨batches, pred, 0, 0⟩).2.pending = [] ∧
        (ModelDataSource.run_to_end ⟨batches, pred, 0, 0⟩).2.num_rows_read ≤
          (ModelDataSource.run_to_end ⟨batches, pred, 0, 0⟩).2.raw_rows_read) := by
  constructor
  · intro s h
    cases hp : s.pending with
    | nil =>
      simpa [ModelDataSource.get_next, hp] using h
    | cons batch rest =>
      have hfilter : (batch.filter s.pred).length ≤ batch.length :=
        List.length_filter_le s.pred batch
      simp [ModelDataSource.get_next, hp]
      omega
  · intro batches pred
    obtain ⟨h1, h2, h3⟩ :=
      ModelDataSource.run_steps_spec batches.length ⟨batches, pred, 0, 0⟩
        (Nat.le_refl _)
    exact ⟨by simpa [ModelDataSource.run_to_end] using h1,
           by simpa [ModelDataSource.run_to_end] using h2,
           by simpa [ModelDataSource.run_to_end] using h3 (Nat.le_refl 0)⟩

/-- Witness for `data_source_row_accounting` at a concrete source with one
raw batch and the predicate `1 < r`. -/
theorem data_source_row_accounting_witness :
    ((ModelDataSource.mk [[1, 2, 3]] (fun r => decide (1 < r)) 0 0).get_next).2.num_rows_read ≤
      ((ModelDataSource.mk [[1, 2, 3]] (fun r => decide (1 < r)) 0 0).get_next).2.raw_rows_read :=
  data_source_row_accounting.1
    (ModelDataSource.mk [[1, 2, 3]] (fun r => decide (1 < r)) 0 0) (Nat.le_refl 0)
